import Mathlib

set_option maxRecDepth 100000

/- Shallow embedding of the demand-paged virtual memory simulator in
src/sce213-pa4-2020s/pa4.c: the two-level page table, the frame allocator
(alloc_page), deallocation (free_page), the page-fault resolver
(handle_page_fault) and the fork/switch logic (switch_process).

Modelling conventions:
* Machine integers are Nat; the unsigned int mapcounts are inc/decremented
  modulo 2^32 (incWrap / decWrap).
* vpn is Fin 256 (NR_PTES_PER_PAGE = 16 outer slots of 16 PTEs each);
  pfn is Fin 128 (NR_PAGEFRAMES = 128).
* A pte_directory pointer that may be NULL is Option PTEDirectory; reading a
  field through a NULL pointer is modelled as the distinguished PFResult.crash
  (for handle_page_fault) or a none result (for free_page).
* Falling off the end of the C function handle_page_fault without executing a
  return statement (undefined return value) is modelled as PFResult.noReturn,
  carrying the state at that point.
* Uninitialized malloc memory is indeterminate in C; every operation that
  mallocs a directory or a process takes the junk contents as an explicit
  parameter, so theorems can quantify over (or pick) the junk.
* The pte field named private in the C source is called priv here, since
  private is a Lean keyword.  The framework header declares valid and
  writable as bool, so the C assignment writable = rw with rw in {2, 3}
  stores true.
-/

/-- RW_READ flag of the framework header (0x01). -/
def RW_READ : Nat := 1

/-- RW_WRITE flag of the framework header (0x02). -/
def RW_WRITE : Nat := 2

/-- Unsigned 32-bit increment, as applied to the unsigned int mapcounts. -/
def incWrap (c : Nat) : Nat := (c + 1) % 4294967296

/-- Unsigned 32-bit decrement, as applied to the unsigned int mapcounts. -/
def decWrap (c : Nat) : Nat := (c + 4294967295) % 4294967296

/-- A page table entry: struct pte of the framework, with the C field
private renamed to priv. -/
structure PTE where
  valid : Bool
  writable : Bool
  pfn : Fin 128
  priv : Nat
deriving DecidableEq, Repr

/-- An inner directory: struct pte_directory, 16 PTEs. -/
structure PTEDirectory where
  ptes : Fin 16 → PTE

/-- A two-level page table: struct pagetable, 16 optional inner directories
(a NULL pointer is none). -/
structure PageTable where
  outer_ptes : Fin 16 → Option PTEDirectory

/-- The state touched by the single-process operations: the page table the
page table base register points to, and the global frame share counters. -/
structure VMState where
  pt : PageTable
  mapcounts : Fin 128 → Nat

/-- A process: pid plus its page table. -/
structure Process where
  pid : Nat
  pagetable : PageTable

/-- The whole simulator state for switch_process: the running process, the
ready list (in list order, head first) and the frame share counters. -/
structure System where
  current : Process
  ready : List Process
  mapcounts : Fin 128 → Nat

/-- outer_index = vpn / NR_PTES_PER_PAGE. -/
def outerIndex (vpn : Fin 256) : Fin 16 :=
  ⟨vpn.1 / 16, by have h := vpn.2; omega⟩

/-- inner_index = vpn % NR_PTES_PER_PAGE. -/
def innerIndex (vpn : Fin 256) : Fin 16 :=
  ⟨vpn.1 % 16, by have h := vpn.2; omega⟩

/-- The scan loop of alloc_page: starting at index i with the given fuel,
return the first frame whose share count is 0.  Fuel-based structural
recursion so that the kernel can evaluate it. -/
def findFromAux (mc : Fin 128 → Nat) : Nat → Nat → Option (Fin 128)
  | 0, _ => none
  | fuel + 1, i =>
    if h : i < 128 then
      if mc ⟨i, h⟩ = 0 then some ⟨i, h⟩ else findFromAux mc fuel (i + 1)
    else none

/-- The for loop of alloc_page lines 72-74: the lowest-numbered frame with
share count 0, none when every frame is taken. -/
def findFree (mc : Fin 128 → Nat) : Option (Fin 128) := findFromAux mc 128 0

/-- The installing tail of alloc_page (lines 82-95), once the scan has chosen
frame ppn: get-or-malloc the inner directory (jd is the indeterminate malloc
contents), set valid and pfn, bump the share count, and set writable exactly
when rw is 2 or 3 (the C assignment writable = rw stores a nonzero value into
a bool, i.e. true); for any other rw the slot's previous writable value — for
a fresh directory, the junk value — is left in place. -/
def alloc_page_install (jd : PTEDirectory) (s : VMState) (vpn : Fin 256)
    (rw : Nat) (ppn : Fin 128) : VMState :=
  { pt :=
      { outer_ptes :=
          Function.update s.pt.outer_ptes (outerIndex vpn)
            (some
              { ptes :=
                  Function.update ((s.pt.outer_ptes (outerIndex vpn)).getD jd).ptes
                    (innerIndex vpn)
                    (if rw = 2 ∨ rw = 3 then
                      { ((s.pt.outer_ptes (outerIndex vpn)).getD jd).ptes
                          (innerIndex vpn) with
                        valid := true, writable := true, pfn := ppn }
                    else
                      { ((s.pt.outer_ptes (outerIndex vpn)).getD jd).ptes
                          (innerIndex vpn) with
                        valid := true, pfn := ppn }) }) },
    mapcounts := Function.update s.mapcounts ppn (incWrap (s.mapcounts ppn)) }

/-- alloc_page of pa4.c.  jd is the indeterminate contents of the
pte_directory malloc performed when the outer slot is NULL.  Returns the
allocated pfn (none for the C return value -1) and the new state. -/
def alloc_page (jd : PTEDirectory) (s : VMState) (vpn : Fin 256) (rw : Nat) :
    Option (Fin 128) × VMState :=
  match findFree s.mapcounts with
  | none => (none, s)
  | some ppn => (some ppn, alloc_page_install jd s vpn rw ppn)

/-- The body of free_page (lines 115-121) once the outer directory is known
to be present: zero valid, writable and pfn (but not the private field) and
decrement the frame's share count. -/
def free_page_install (s : VMState) (vpn : Fin 256) (dir : PTEDirectory) :
    VMState :=
  { pt :=
      { outer_ptes :=
          Function.update s.pt.outer_ptes (outerIndex vpn)
            (some
              { ptes :=
                  Function.update dir.ptes (innerIndex vpn)
                    { dir.ptes (innerIndex vpn) with
                      valid := false, writable := false, pfn := 0 } }) },
    mapcounts :=
      Function.update s.mapcounts (dir.ptes (innerIndex vpn)).pfn
        (decWrap (s.mapcounts (dir.ptes (innerIndex vpn)).pfn)) }

/-- free_page of pa4.c.  Returns none when the outer slot is NULL: line 115
dereferences the absent directory (a crash in C). -/
def free_page (s : VMState) (vpn : Fin 256) : Option VMState :=
  match s.pt.outer_ptes (outerIndex vpn) with
  | none => none
  | some dir => some (free_page_install s vpn dir)

/-- Result of handle_page_fault: crash models the NULL dereference of
line 148 (reading pte.pfn before the NULL check of line 149); noReturn
models control reaching the closing brace without a return statement
(the C return value is then undefined); ret b s is an executed return. -/
inductive PFResult where
  | crash : PFResult
  | noReturn : VMState → PFResult
  | ret : Bool → VMState → PFResult

/-- The state produced by the last-sharer COW branch of handle_page_fault
(lines 161-164): set writable on the existing PTE, touching nothing else. -/
def cow_mark_writable (s : VMState) (vpn : Fin 256) (dir : PTEDirectory) :
    VMState :=
  { s with
    pt :=
      { outer_ptes :=
          Function.update s.pt.outer_ptes (outerIndex vpn)
            (some
              { ptes :=
                  Function.update dir.ptes (innerIndex vpn)
                    { dir.ptes (innerIndex vpn) with writable := true } }) } }

/-- The classification chain of handle_page_fault (lines 149-172), after the
outer directory has been found present (the C reads pte.pfn through the
pointer at line 148 before checking it at line 149, so an absent directory
is a crash handled by the caller of this body).  The chain is: invalid PTE
returns false; write to a non-writable non-COW PTE returns false; COW with
share count above 1 decrements the count and re-allocates (ignoring an
allocator failure); COW with share count 1 just sets writable; otherwise
control falls off the end of the C function without a return. -/
def handle_page_fault_body (jd : PTEDirectory) (s : VMState) (vpn : Fin 256)
    (rw : Nat) (dir : PTEDirectory) : PFResult :=
  if (dir.ptes (innerIndex vpn)).valid = false then PFResult.ret false s
  else if rw = RW_WRITE ∧ (dir.ptes (innerIndex vpn)).writable = false ∧
      (dir.ptes (innerIndex vpn)).priv = 0 then
    PFResult.ret false s
  else if (dir.ptes (innerIndex vpn)).priv = 1 ∧
      s.mapcounts (dir.ptes (innerIndex vpn)).pfn > 1 then
    PFResult.ret true
      (alloc_page jd
        { s with
          mapcounts :=
            Function.update s.mapcounts (dir.ptes (innerIndex vpn)).pfn
              (decWrap (s.mapcounts (dir.ptes (innerIndex vpn)).pfn)) }
        vpn RW_WRITE).2
  else if (dir.ptes (innerIndex vpn)).priv = 1 ∧
      s.mapcounts (dir.ptes (innerIndex vpn)).pfn = 1 then
    PFResult.ret true (cow_mark_writable s vpn dir)
  else PFResult.noReturn s

/-- handle_page_fault of pa4.c.  jd is the junk for the alloc_page call of
the still-shared COW branch (unused there, since the outer directory is
present at that point). -/
def handle_page_fault (jd : PTEDirectory) (s : VMState) (vpn : Fin 256)
    (rw : Nat) : PFResult :=
  match s.pt.outer_ptes (outerIndex vpn) with
  | none => PFResult.crash
  | some dir => handle_page_fault_body jd s vpn rw dir

/-- The inner (j) loop of the fork branch of switch_process, over the listed
inner indices in order.  pdir is the parent directory (mutated through ptbr),
cdir is the child directory (starting from the malloc junk), mc the frame
counters.  Returns (parent directory, child directory, counters). -/
def forkPTEs : List (Fin 16) → PTEDirectory → PTEDirectory → (Fin 128 → Nat) →
    PTEDirectory × PTEDirectory × (Fin 128 → Nat)
  | [], pdir, cdir, mc => (pdir, cdir, mc)
  | j :: rest, pdir, cdir, mc =>
    let p := pdir.ptes j
    if p.valid = true then
      let share := p.writable = true ∨ p.priv = 1
      let p2 := if share then { p with writable := false, priv := 1 } else p
      let cj := cdir.ptes j
      let c2 :=
        if share then { cj with priv := 1, valid := true, pfn := p.pfn }
        else { cj with valid := true, pfn := p.pfn }
      forkPTEs rest
        { ptes := Function.update pdir.ptes j p2 }
        { ptes := Function.update cdir.ptes j c2 }
        (Function.update mc p.pfn (incWrap (mc p.pfn)))
    else forkPTEs rest pdir cdir mc

/-- The outer (i) loop of the fork branch.  jDirs gives, per outer index, the
indeterminate contents of the pte_directory malloc for the child; cpt starts
as the junk contents of the malloc of the child process itself. -/
def forkOuterAux (jDirs : Fin 16 → PTEDirectory) :
    List (Fin 16) → PageTable → PageTable → (Fin 128 → Nat) →
    PageTable × PageTable × (Fin 128 → Nat)
  | [], ppt, cpt, mc => (ppt, cpt, mc)
  | i :: rest, ppt, cpt, mc =>
    match ppt.outer_ptes i with
    | none => forkOuterAux jDirs rest ppt cpt mc
    | some pdir =>
      let r := forkPTEs (List.finRange 16) pdir (jDirs i) mc
      forkOuterAux jDirs rest
        { outer_ptes := Function.update ppt.outer_ptes i (some r.1) }
        { outer_ptes := Function.update cpt.outer_ptes i (some r.2.1) }
        r.2.2

/-- The linear pid search of switch_process lines 199-207. -/
def findPid (l : List Process) (pid : Nat) : Option Process :=
  l.find? (fun p => p.pid == pid)

/-- list_del of the first ready process with the given pid. -/
def removePid : List Process → Nat → List Process
  | [], _ => []
  | p :: rest, pid => if p.pid = pid then rest else p :: removePid rest pid

/-- switch_process of pa4.c.  jPT is the junk pagetable inside the malloc of
the child struct process, jDirs the junk contents of the per-outer-index
directory mallocs.  In the found case the current process goes to the tail of
the ready list and the found one becomes current with no frame or PTE
mutation; otherwise the fork branch runs. -/
def switch_process (jPT : PageTable) (jDirs : Fin 16 → PTEDirectory)
    (sys : System) (pid : Nat) : System :=
  match findPid sys.ready pid with
  | some p =>
    { current := p,
      ready := removePid sys.ready pid ++ [sys.current],
      mapcounts := sys.mapcounts }
  | none =>
    let r := forkOuterAux jDirs (List.finRange 16) sys.current.pagetable jPT
      sys.mapcounts
    { current := { pid := pid, pagetable := r.2.1 },
      ready := sys.ready ++ [{ sys.current with pagetable := r.1 }],
      mapcounts := r.2.2 }

/-- Observation helper: the PTE stored for a vpn in a page table (the all-zero
PTE when the outer slot is absent; only used at present slots in theorems). -/
def pteAtPT (pt : PageTable) (vpn : Fin 256) : PTE :=
  match pt.outer_ptes (outerIndex vpn) with
  | none => ⟨false, false, 0, 0⟩
  | some d => d.ptes (innerIndex vpn)

/-- Observation helper: the PTE stored for a vpn in a VM state. -/
def pteAt (s : VMState) (vpn : Fin 256) : PTE := pteAtPT s.pt vpn

/-- Observation helper: the state carried by a fault result (default for
crash, which has none). -/
def vmOf (r : PFResult) (dflt : VMState) : VMState :=
  match r with
  | PFResult.crash => dflt
  | PFResult.noReturn s => s
  | PFResult.ret _ s => s

/-- Observation helper: the boolean actually returned by handle_page_fault,
none when it crashed or fell off the end. -/
def retBool : PFResult → Option Bool
  | PFResult.ret b _ => some b
  | _ => none

/-- Number of valid PTEs in one inner directory. -/
def countValidDir (d : PTEDirectory) : Nat :=
  ((List.finRange 16).map (fun j => if (d.ptes j).valid then 1 else 0)).sum

/-- Number of valid PTEs in a page table. -/
def countValidPT (pt : PageTable) : Nat :=
  ((List.finRange 16).map (fun i =>
    match pt.outer_ptes i with
    | none => 0
    | some d => countValidDir d)).sum

/-- Sum of the share counts over all 128 frames. -/
def sumCounts (mc : Fin 128 → Nat) : Nat := ((List.finRange 128).map mc).sum

/-- Modelled from the spec: the framework driver (vm.c, not part of src/)
invokes the fault resolver exactly when translation fails, i.e. the VPN is
unmapped (absent outer slot or invalid PTE) or the access is a write and the
PTE is not writable.  This predicate says whether an access to vpn with the
given rw still faults in state s. -/
def faults (s : VMState) (vpn : Fin 256) (rw : Nat) : Bool :=
  match s.pt.outer_ptes (outerIndex vpn) with
  | none => true
  | some d =>
    let pte := d.ptes (innerIndex vpn)
    !pte.valid || (decide (rw = RW_WRITE) && !pte.writable)

/-- The all-zero PTE (C zero initialization). -/
def pteZero : PTE := ⟨false, false, 0, 0⟩

/-- An all-zero inner directory, also used as the lucky all-zero malloc junk. -/
def jdZero : PTEDirectory := ⟨fun _ => pteZero⟩

/-- A page table with every outer slot NULL. -/
def jptNone : PageTable := ⟨fun _ => none⟩

/-- Default process for list projections in theorem statements. -/
def dfltProc : Process := ⟨0, jptNone⟩

/-- Junk directory whose entries carry a stale writable bit, as uninitialized
malloc memory may. -/
def jdW : PTEDirectory := ⟨fun _ => ⟨false, true, 0, 0⟩⟩

/-- vpn 0. -/
def v0 : Fin 256 := ⟨0, by omega⟩

/-- vpn 17 (outer index 1, inner index 1). -/
def v17 : Fin 256 := ⟨17, by omega⟩

/-- vpn 128 (outer index 8, inner index 0). -/
def v128 : Fin 256 := ⟨128, by omega⟩

/-- A directory holding one valid COW PTE (vpn 0 -> frame 0, read-only,
priv = 1) in slot 0. -/
def c1dir : PTEDirectory :=
  ⟨fun j => if j.1 = 0 then ⟨true, false, 0, 1⟩ else pteZero⟩

/-- Counterexample state for C1: frame 0 shared (count 2) and every other
frame also taken, so the allocator inside the COW break will fail. -/
def c1cexSt : VMState :=
  ⟨⟨fun i => if i.1 = 0 then some c1dir else none⟩,
   fun f => if f.1 = 0 then 2 else 1⟩

/-- Witness state for C1: frame 0 shared (count 2), every other frame free. -/
def c1wSt : VMState :=
  ⟨⟨fun i => if i.1 = 0 then some c1dir else none⟩,
   fun f => if f.1 = 0 then 2 else 0⟩

/-- A fully valid directory for outer index i: slot j maps to frame 16i+j,
read-only, not COW. -/
def fullDir (i : Fin 8) : PTEDirectory :=
  ⟨fun j => ⟨true, false, ⟨16 * i.1 + j.1, by have h1 := i.2; have h2 := j.2; omega⟩, 0⟩⟩

/-- Directory for outer index 8 of the C2 state: one extra sharer of frame 0,
COW. -/
def c2dir8 : PTEDirectory :=
  ⟨fun j => if j.1 = 0 then ⟨true, false, 0, 1⟩ else pteZero⟩

/-- C2 failing state: 129 valid PTEs (outer 0..7 full plus vpn 128), frame 0
shared with count 2, frames 1..127 each count 1 — share counts conserve, and
no frame is free. -/
def c2st : VMState :=
  ⟨⟨fun i => if h : i.1 < 8 then some (fullDir ⟨i.1, h⟩)
     else if i.1 = 8 then some c2dir8 else none⟩,
   fun f => if f.1 = 0 then 2 else 1⟩

/-- Parent directory for C3: vpn 0 mapped writable to frame 0. -/
def c3dir : PTEDirectory :=
  ⟨fun j => if j.1 = 0 then ⟨true, true, 0, 0⟩ else pteZero⟩

/-- C3 system: one process (pid 1) holding vpn 0 writable on frame 0, empty
ready list. -/
def c3sys : System :=
  ⟨⟨1, ⟨fun i => if i.1 = 0 then some c3dir else none⟩⟩, [],
   fun f => if f.1 = 0 then 1 else 0⟩

/-- C3 result: fork of pid 2 where the mallocs for the child return junk with
a stale writable bit set. -/
def c3res : System := switch_process jptNone (fun _ => jdW) c3sys 2

/-- Parent directory for C4 (scenario B): vpn 0 mapped writable to frame 0. -/
def c4dir : PTEDirectory :=
  ⟨fun j => if j.1 = 0 then ⟨true, true, 0, 0⟩ else pteZero⟩

/-- C4 start system: parent pid 1 holds vpn 0 writable on frame 0. -/
def c4sysB : System :=
  ⟨⟨1, ⟨fun i => if i.1 = 0 then some c4dir else none⟩⟩, [],
   fun f => if f.1 = 0 then 1 else 0⟩

/-- C4 system after forking pid 2 (mallocs luckily return zeroed junk). -/
def c4sysF : System := switch_process jptNone (fun _ => jdZero) c4sysB 2

/-- The child's VM view after the fork. -/
def c4childVM : VMState := ⟨c4sysF.current.pagetable, c4sysF.mapcounts⟩

/-- The child's write fault on the shared vpn 0. -/
def c4res : PFResult := handle_page_fault jdZero c4childVM v0 RW_WRITE

/-- State after the child's COW break. -/
def c4after : VMState := vmOf c4res c4childVM

/-- The parent's page table, as left in the ready list — untouched by the
child's fault. -/
def c4parentPT : PageTable := (c4sysF.ready.headD dfltProc).pagetable

/-- The parent's VM view once it would run again. -/
def c4parentVM : VMState := ⟨c4parentPT, c4after.mapcounts⟩

/-- The parent's own later write fault on vpn 0 (the lazy COW collapse). -/
def c4res2 : PFResult := handle_page_fault jdZero c4parentVM v0 RW_WRITE

/-- State after the parent's own fault. -/
def c4after2 : VMState := vmOf c4res2 c4parentVM

/-- C5 state: a completely empty page table (every outer slot NULL). -/
def c5st : VMState := ⟨jptNone, fun _ => 0⟩

/-- C6 state, first part: empty page table, all frames busy. -/
def c6st : VMState := ⟨jptNone, fun _ => 1⟩

/-- C6 directory, second part: vpn 0 valid, read-only, not COW, frame 3. -/
def c6dir : PTEDirectory :=
  ⟨fun j => if j.1 = 0 then ⟨true, false, 3, 0⟩ else pteZero⟩

/-- C6 state, second part. -/
def c6stB : VMState :=
  ⟨⟨fun i => if i.1 = 0 then some c6dir else none⟩,
   fun f => if f.1 = 3 then 1 else 0⟩

/-- C7 counterexample state: empty table, all frames free; the fresh inner
directory malloc returns junk with a stale writable bit. -/
def c7st : VMState := ⟨jptNone, fun _ => 0⟩

/-- C7 witness state: frame 0 taken, the rest free. -/
def c7wSt : VMState := ⟨jptNone, fun f => if f.1 = 0 then 1 else 0⟩

/-- C8 state: vpn 0 valid and writable (not COW), frame 0 count 1. -/
def c8dir : PTEDirectory :=
  ⟨fun j => if j.1 = 0 then ⟨true, true, 0, 0⟩ else pteZero⟩

/-- C8 state: a write access to a valid, writable PTE. -/
def c8st : VMState :=
  ⟨⟨fun i => if i.1 = 0 then some c8dir else none⟩,
   fun f => if f.1 = 0 then 1 else 0⟩

/-- C9 directory: vpn 0 valid, writable, frame 3, COW marker set. -/
def c9dir : PTEDirectory :=
  ⟨fun j => if j.1 = 0 then ⟨true, true, 3, 1⟩ else pteZero⟩

/-- C9 state. -/
def c9st : VMState :=
  ⟨⟨fun i => if i.1 = 0 then some c9dir else none⟩,
   fun f => if f.1 = 3 then 1 else 0⟩

/-- C10 witness state: every frame busy. -/
def c10st : VMState := ⟨jptNone, fun _ => 1⟩

/-- The 32-bit decrement is an ordinary decrement on counts in unsigned
range. -/
theorem decWrap_eq_sub (c : Nat) (h1 : 1 ≤ c) (h2 : c < 4294967296) :
    decWrap c = c - 1 := by
  unfold decWrap; omega

/-- The allocator scan returns a frame with share count 0, and every frame
before it (from the scan start) has a nonzero count. -/
theorem findFromAux_some (mc : Fin 128 → Nat) :
    ∀ fuel i p, findFromAux mc fuel i = some p →
      i ≤ p.1 ∧ mc p = 0 ∧ ∀ q : Fin 128, i ≤ q.1 → q.1 < p.1 → mc q ≠ 0 := by
  intro fuel
  induction fuel with
  | zero => intro i p h; simp [findFromAux] at h
  | succ n ih =>
    intro i p h
    unfold findFromAux at h
    by_cases hi : i < 128
    · rw [dif_pos hi] at h
      by_cases hz : mc ⟨i, hi⟩ = 0
      · rw [if_pos hz] at h
        injection h with h
        subst h
        refine ⟨le_refl _, hz, ?_⟩
        intro q hq1 hq2 _
        have hq3 : q.1 < i := hq2
        omega
      · rw [if_neg hz] at h
        obtain ⟨h1, h2, h3⟩ := ih (i + 1) p h
        refine ⟨by omega, h2, ?_⟩
        intro q hq1 hq2
        by_cases hqi : q.1 = i
        · have hq : q = ⟨i, hi⟩ := Fin.ext hqi
          rw [hq]; exact hz
        · exact h3 q (by omega) hq2
    · rw [dif_neg hi] at h
      exact absurd h (by simp)

/-- When the allocator scan fails, every frame from the scan start onward has
a nonzero share count. -/
theorem findFromAux_none (mc : Fin 128 → Nat) :
    ∀ fuel i, 128 ≤ i + fuel → findFromAux mc fuel i = none →
      ∀ q : Fin 128, i ≤ q.1 → mc q ≠ 0 := by
  intro fuel
  induction fuel with
  | zero =>
    intro i hle _ q hq _
    have h2 := q.2
    omega
  | succ n ih =>
    intro i hle h q hq
    unfold findFromAux at h
    by_cases hi : i < 128
    · rw [dif_pos hi] at h
      by_cases hz : mc ⟨i, hi⟩ = 0
      · rw [if_pos hz] at h
        exact absurd h (by simp)
      · rw [if_neg hz] at h
        by_cases hqi : q.1 = i
        · have hq2 : q = ⟨i, hi⟩ := Fin.ext hqi
          rw [hq2]; exact hz
        · exact ih (i + 1) (by omega) h q (by omega)
    · intro _
      have h2 := q.2
      omega

/-- The allocator scan only looks at which counts are zero, so it is stable
under any change that preserves zeroness. -/
theorem findFromAux_congr (mc mc2 : Fin 128 → Nat)
    (h : ∀ q : Fin 128, mc q = 0 ↔ mc2 q = 0) :
    ∀ fuel i, findFromAux mc fuel i = findFromAux mc2 fuel i := by
  intro fuel
  induction fuel with
  | zero => intro i; rfl
  | succ n ih =>
    intro i
    unfold findFromAux
    by_cases hi : i < 128
    · rw [dif_pos hi, dif_pos hi]
      by_cases hz : mc ⟨i, hi⟩ = 0
      · rw [if_pos hz, if_pos ((h _).mp hz)]
      · rw [if_neg hz, if_neg (fun hz2 => hz ((h _).mpr hz2))]
        exact ih (i + 1)
    · rw [dif_neg hi, dif_neg hi]

/-- findFree fails exactly when no frame has share count 0. -/
theorem findFree_none_iff (mc : Fin 128 → Nat) :
    findFree mc = none ↔ ∀ q : Fin 128, mc q ≠ 0 := by
  constructor
  · intro h q
    exact findFromAux_none mc 128 0 (by omega) h q (Nat.zero_le _)
  · intro h
    cases hf : findFree mc with
    | none => rfl
    | some p => exact absurd (findFromAux_some mc 128 0 p hf).2.1 (h p)

/-- Unfolding lemma: handle_page_fault on a present outer directory runs the
classification chain. -/
theorem handle_page_fault_eq (jd : PTEDirectory) (s : VMState) (vpn : Fin 256)
    (rw : Nat) (d : PTEDirectory)
    (hd : s.pt.outer_ptes (outerIndex vpn) = some d) :
    handle_page_fault jd s vpn rw = handle_page_fault_body jd s vpn rw d := by
  unfold handle_page_fault
  rw [hd]

/-- Unfolding lemma: alloc_page when a free frame is found. -/
theorem alloc_page_eq_some (jd : PTEDirectory) (s : VMState) (vpn : Fin 256)
    (rw : Nat) (p : Fin 128) (hf : findFree s.mapcounts = some p) :
    alloc_page jd s vpn rw = (some p, alloc_page_install jd s vpn rw p) := by
  unfold alloc_page
  rw [hf]

/-- Unfolding lemma: free_page on a present outer directory. -/
theorem free_page_eq (s : VMState) (vpn : Fin 256) (d : PTEDirectory)
    (hd : s.pt.outer_ptes (outerIndex vpn) = some d) :
    free_page s vpn = some (free_page_install s vpn d) := by
  unfold free_page
  rw [hd]

/-- Unfolding lemma: the PTE observed at a present outer directory. -/
theorem pteAtPT_eq (pt : PageTable) (vpn : Fin 256) (d : PTEDirectory)
    (hd : pt.outer_ptes (outerIndex vpn) = some d) :
    pteAtPT pt vpn = d.ptes (innerIndex vpn) := by
  unfold pteAtPT
  rw [hd]

/-- Unfolding lemma: the fault predicate at a present outer directory. -/
theorem faults_eq (s : VMState) (vpn : Fin 256) (d : PTEDirectory)
    (hd : s.pt.outer_ptes (outerIndex vpn) = some d) (rw : Nat) :
    faults s vpn rw =
      (!(d.ptes (innerIndex vpn)).valid ||
        (decide (rw = RW_WRITE) && !(d.ptes (innerIndex vpn)).writable)) := by
  unfold faults
  rw [hd]

/-- C5 (code bug): the claim — and the spec — require handle_page_fault to
consult the page table before reading any PTE field and never to dereference
an absent directory, but line 148 of pa4.c reads pte.pfn through the outer
pointer before the NULL check of line 149: a fault on a VPN whose outer slot
is absent is a NULL dereference, not a SegmentationFault return. -/
theorem c5_deref_before_check :
    handle_page_fault jdZero c5st v0 RW_WRITE = PFResult.crash := rfl

/-- C6 (code bug): the claimed iff fails in both directions.  On an unmapped
VPN with an absent outer slot the function crashes (NULL dereference) instead
of returning false, and on a read access to a valid read-only PTE the
function reaches its end without any return statement, so its C return value
is undefined rather than a clean non-error. -/
theorem c6_not_iff :
    handle_page_fault jdZero c6st v17 RW_WRITE = PFResult.crash ∧
    handle_page_fault jdZero c6stB v0 RW_READ = PFResult.noReturn c6stB :=
  ⟨rfl, rfl⟩

/-- C8 (code bug): a write access to a valid, writable, non-COW PTE reaches
the end of handle_page_fault without executing any return statement, so the
function does not return the claimed success value (its C return value is
undefined), even though the state is indeed left unchanged. -/
theorem c8_missing_return :
    handle_page_fault jdZero c8st v0 RW_WRITE = PFResult.noReturn c8st := rfl

/-- C2 (code bug): share-count conservation is not preserved by
handle_page_fault.  In c2st the sum of share counts equals the number of
valid PTEs (129 = 129) and every frame is taken; a write fault on the COW
vpn 128 (share count 2) decrements frame 0's count and then ignores the
failure of alloc_page, returning true with 128 total count against 129 valid
PTEs. -/
theorem c2_conservation_broken :
    sumCounts c2st.mapcounts = countValidPT c2st.pt ∧
    retBool (handle_page_fault jdZero c2st v128 RW_WRITE) = some true ∧
    sumCounts (vmOf (handle_page_fault jdZero c2st v128 RW_WRITE) c2st).mapcounts = 128 ∧
    countValidPT (vmOf (handle_page_fault jdZero c2st v128 RW_WRITE) c2st).pt = 129 := by
  decide

/-- C3 (code bug): the fork branch of switch_process never writes the
child's writable field — the child PTE keeps whatever the malloc junk held.
With junk whose writable bit is set, forking a parent that holds vpn 0
writable on frame 0 yields a child PTE that is valid, COW (priv 1), pfn 0,
share count 2 — but writable = true, contradicting the claimed
writable = false (and the source comment that the child's PTE values equal
the parent's, which end writable = false). -/
theorem c3_child_writable_junk :
    (pteAtPT c3res.current.pagetable v0).valid = true ∧
    (pteAtPT c3res.current.pagetable v0).pfn = 0 ∧
    (pteAtPT c3res.current.pagetable v0).priv = 1 ∧
    (pteAtPT c3res.current.pagetable v0).writable = true ∧
    c3res.mapcounts 0 = 2 ∧
    pteAtPT (c3res.ready.headD dfltProc).pagetable v0 = ⟨true, false, 0, 1⟩ := by
  decide

/-- C4 counterexample: after the fork of c4sysB and the child's write fault
on vpn 0, the fault is reported resolved but the parent's PTE for vpn 0 is
NOT made writable (the code only ever touches the current process's page
table), contradicting the claim. -/
theorem c4_counterexample :
    retBool c4res = some true ∧
    (pteAtPT c4parentPT v0).writable = false := by
  decide

/-- C4 (amended): after the fork both sides share frame 0 COW with count 2;
the child's write fault installs fresh frame 1 for the child (count 1),
drops frame 0's count to 1, and leaves the parent's PTE entirely unchanged
(still pfn 0, not writable, COW) — the frames diverge, and the parent's PTE
becomes writable only on the parent's own subsequent write fault. -/
theorem c4_amended_cow_isolation :
    c4sysF.mapcounts 0 = 2 ∧
    pteAt c4childVM v0 = ⟨true, false, 0, 1⟩ ∧
    pteAtPT c4parentPT v0 = ⟨true, false, 0, 1⟩ ∧
    retBool c4res = some true ∧
    pteAt c4after v0 = ⟨true, true, 1, 1⟩ ∧
    c4after.mapcounts 0 = 1 ∧
    c4after.mapcounts 1 = 1 ∧
    pteAtPT c4parentPT v0 = ⟨true, false, 0, 1⟩ ∧
    retBool c4res2 = some true ∧
    pteAt c4after2 v0 = ⟨true, true, 0, 1⟩ ∧
    c4after2.mapcounts 0 = 1 ∧
    c4after2.mapcounts 1 = 1 := by
  decide

/-- C1 counterexample: a write fault on a valid COW PTE whose frame has share
count 2 while every frame of the system is taken.  The code decrements the
old frame's count, the embedded alloc_page call fails and is ignored, and
the handler still returns true — no fresh frame is installed, the PTE is
unchanged (not writable) and a subsequent write to the VPN faults again,
contradicting the claim. -/
theorem c1_counterexample :
    retBool (handle_page_fault jdZero c1cexSt v0 RW_WRITE) = some true ∧
    (pteAt (vmOf (handle_page_fault jdZero c1cexSt v0 RW_WRITE) c1cexSt) v0).writable = false ∧
    (pteAt (vmOf (handle_page_fault jdZero c1cexSt v0 RW_WRITE) c1cexSt) v0).pfn = 0 ∧
    (vmOf (handle_page_fault jdZero c1cexSt v0 RW_WRITE) c1cexSt).mapcounts 0 = 1 ∧
    faults (vmOf (handle_page_fault jdZero c1cexSt v0 RW_WRITE) c1cexSt) v0 RW_WRITE = true := by
  decide

/-- C7 counterexample: alloc_page with a read-only request does not clear the
writable field — it only assigns writable when rw is 2 or 3.  On an empty
page table whose freshly malloc-ed inner directory carries junk with the
writable bit set, alloc_page(vpn 0, RW_READ) yields a PTE with
writable = true, refuting the claimed "writable = true iff the request
includes write permission". -/
theorem c7_counterexample :
    (alloc_page jdW c7st v0 RW_READ).1 = some 0 ∧
    pteAt (alloc_page jdW c7st v0 RW_READ).2 v0 = ⟨true, true, 0, 0⟩ := by
  decide

/-- C9 counterexample: free_page zeroes valid, writable and pfn but never
touches the private field, so the COW marker of a freed PTE survives,
refuting the claim that the PTE is cleared with "the COW marker all zero". -/
theorem c9_counterexample :
    (free_page c9st v0).isSome = true ∧
    pteAt ((free_page c9st v0).getD c9st) v0 = ⟨false, false, 0, 1⟩ := by
  decide

/-- The mapcounts left by the installing tail of alloc_page. -/
theorem alloc_page_install_mapcounts (jd : PTEDirectory) (s : VMState)
    (vpn : Fin 256) (rw : Nat) (p : Fin 128) :
    (alloc_page_install jd s vpn rw p).mapcounts =
      Function.update s.mapcounts p (incWrap (s.mapcounts p)) := rfl

/-- The outer slot of the faulting vpn is populated after the installing
tail of alloc_page. -/
theorem alloc_page_install_outer_isSome (jd : PTEDirectory) (s : VMState)
    (vpn : Fin 256) (rw : Nat) (p : Fin 128) :
    ((alloc_page_install jd s vpn rw p).pt.outer_ptes (outerIndex vpn)).isSome
      = true := by
  unfold alloc_page_install
  simp [Function.update_same]

/-- The PTE observed at the faulting vpn after the installing tail of
alloc_page. -/
theorem pteAt_alloc_page_install (jd : PTEDirectory) (s : VMState)
    (vpn : Fin 256) (rw : Nat) (p : Fin 128) :
    pteAt (alloc_page_install jd s vpn rw p) vpn =
      (if rw = 2 ∨ rw = 3 then
        { ((s.pt.outer_ptes (outerIndex vpn)).getD jd).ptes (innerIndex vpn) with
          valid := true, writable := true, pfn := p }
      else
        { ((s.pt.outer_ptes (outerIndex vpn)).getD jd).ptes (innerIndex vpn) with
          valid := true, pfn := p }) := by
  unfold pteAt pteAtPT alloc_page_install
  simp [Function.update_same]

/-- The PTE observed at the faulting vpn after the body of free_page. -/
theorem pteAt_free_page_install (s : VMState) (vpn : Fin 256)
    (d : PTEDirectory) :
    pteAt (free_page_install s vpn d) vpn =
      ⟨false, false, 0, (d.ptes (innerIndex vpn)).priv⟩ := by
  unfold pteAt pteAtPT free_page_install
  simp [Function.update_same]

/-- C7 (amended): whenever some frame is free, alloc_page returns the
smallest-indexed frame with share count 0, populates the outer slot (creating
the inner directory when absent), marks the vpn's PTE valid with that pfn,
raises the chosen frame's count from 0 to 1, and sets writable to true when
rw is RW_WRITE or RW_READ|RW_WRITE; for other rw values the slot's previous
(or, for a fresh directory, indeterminate) writable value is left in place
rather than being cleared. -/
theorem c7_amended (jd : PTEDirectory) (s : VMState) (vpn : Fin 256)
    (rw : Nat) (p : Fin 128) (hp : findFree s.mapcounts = some p) :
    (alloc_page jd s vpn rw).1 = some p ∧
    s.mapcounts p = 0 ∧
    (∀ q : Fin 128, q.1 < p.1 → s.mapcounts q ≠ 0) ∧
    ((alloc_page jd s vpn rw).2.pt.outer_ptes (outerIndex vpn)).isSome = true ∧
    (pteAt (alloc_page jd s vpn rw).2 vpn).valid = true ∧
    (pteAt (alloc_page jd s vpn rw).2 vpn).pfn = p ∧
    (rw = 2 ∨ rw = 3 → (pteAt (alloc_page jd s vpn rw).2 vpn).writable = true) ∧
    (alloc_page jd s vpn rw).2.mapcounts p = 1 := by
  have hspec := findFromAux_some s.mapcounts 128 0 p hp
  have halloc := alloc_page_eq_some jd s vpn rw p hp
  have h1 : (alloc_page jd s vpn rw).1 = some p := by rw [halloc]
  have h2 : (alloc_page jd s vpn rw).2 = alloc_page_install jd s vpn rw p := by
    rw [halloc]
  rw [h1, h2]
  refine ⟨rfl, hspec.2.1, ?_, alloc_page_install_outer_isSome jd s vpn rw p,
    ?_, ?_, ?_, ?_⟩
  · intro q hq
    exact hspec.2.2 q (Nat.zero_le _) hq
  · rw [pteAt_alloc_page_install]
    split <;> rfl
  · rw [pteAt_alloc_page_install]
    split <;> rfl
  · intro hrw
    rw [pteAt_alloc_page_install, if_pos hrw]
  · rw [alloc_page_install_mapcounts, Function.update_same, hspec.2.1]
    decide

/-- C7 witness: on c7wSt (frame 0 busy, the rest free) a writable allocation
for vpn 0 picks frame 1, the smallest free frame, installs a valid writable
PTE with pfn 1 and raises frame 1's count to 1. -/
theorem c7_witness :
    (alloc_page jdZero c7wSt v0 3).1 = some 1 ∧
    c7wSt.mapcounts 1 = 0 ∧
    c7wSt.mapcounts 0 ≠ 0 ∧
    ((alloc_page jdZero c7wSt v0 3).2.pt.outer_ptes (outerIndex v0)).isSome = true ∧
    (pteAt (alloc_page jdZero c7wSt v0 3).2 v0).valid = true ∧
    (pteAt (alloc_page jdZero c7wSt v0 3).2 v0).pfn = 1 ∧
    (pteAt (alloc_page jdZero c7wSt v0 3).2 v0).writable = true ∧
    (alloc_page jdZero c7wSt v0 3).2.mapcounts 1 = 1 := by
  have h := c7_amended jdZero c7wSt v0 3 1 (by decide)
  exact ⟨h.1, h.2.1, h.2.2.1 0 (by decide), h.2.2.2.1, h.2.2.2.2.1,
    h.2.2.2.2.2.1, h.2.2.2.2.2.2.1 (Or.inr rfl), h.2.2.2.2.2.2.2⟩

/-- C9 (amended): under the claimed precondition (outer directory present,
PTE valid) and with the count in unsigned range, free_page decrements the
referenced frame's share count by one, leaves every other count unchanged,
and zeroes valid, writable and pfn — but leaves the COW marker (the C
private field) untouched rather than zeroing it; nothing is signaled on a
misuse (the C function is void: an invalid PTE is processed silently and an
absent outer directory is a NULL dereference). -/
theorem c9_amended (s : VMState) (vpn : Fin 256) (d : PTEDirectory)
    (hd : s.pt.outer_ptes (outerIndex vpn) = some d)
    (hv : (d.ptes (innerIndex vpn)).valid = true)
    (h1 : 1 ≤ s.mapcounts (d.ptes (innerIndex vpn)).pfn)
    (h2 : s.mapcounts (d.ptes (innerIndex vpn)).pfn < 4294967296) :
    free_page s vpn = some (free_page_install s vpn d) ∧
    pteAt (free_page_install s vpn d) vpn =
      ⟨false, false, 0, (d.ptes (innerIndex vpn)).priv⟩ ∧
    (free_page_install s vpn d).mapcounts (d.ptes (innerIndex vpn)).pfn =
      s.mapcounts (d.ptes (innerIndex vpn)).pfn - 1 ∧
    (∀ q : Fin 128, q ≠ (d.ptes (innerIndex vpn)).pfn →
      (free_page_install s vpn d).mapcounts q = s.mapcounts q) := by
  refine ⟨free_page_eq s vpn d hd, pteAt_free_page_install s vpn d, ?_, ?_⟩
  · show Function.update s.mapcounts (d.ptes (innerIndex vpn)).pfn
      (decWrap (s.mapcounts (d.ptes (innerIndex vpn)).pfn))
      (d.ptes (innerIndex vpn)).pfn = _
    rw [Function.update_same]
    exact decWrap_eq_sub _ h1 h2
  · intro q hq
    show Function.update s.mapcounts (d.ptes (innerIndex vpn)).pfn
      (decWrap (s.mapcounts (d.ptes (innerIndex vpn)).pfn)) q = _
    rw [Function.update_noteq hq]

/-- C9 witness: freeing vpn 0 of c9st (valid, writable, COW, frame 3 with
count 1) zeroes valid, writable and pfn, keeps the COW marker at 1, and
drops frame 3's count to 0 while frame 0's count stays 0. -/
theorem c9_witness :
    free_page c9st v0 = some (free_page_install c9st v0 c9dir) ∧
    pteAt (free_page_install c9st v0 c9dir) v0 = ⟨false, false, 0, 1⟩ ∧
    (free_page_install c9st v0 c9dir).mapcounts 3 = 0 ∧
    (free_page_install c9st v0 c9dir).mapcounts 0 = 0 := by
  have h := c9_amended c9st v0 c9dir rfl rfl (by decide) (by decide)
  exact ⟨h.1, h.2.1, h.2.2.1, h.2.2.2 0 (by decide)⟩

/-- C10 (confirmed): alloc_page returns the out-of-memory failure exactly
when every frame's share count is at least 1 at call time, and on that
failure the state — every PTE, directory and share count — is returned
unchanged. -/
theorem c10_oom_iff (jd : PTEDirectory) (s : VMState) (vpn : Fin 256)
    (rw : Nat) :
    ((alloc_page jd s vpn rw).1 = none ↔ ∀ f : Fin 128, 1 ≤ s.mapcounts f) ∧
    ((alloc_page jd s vpn rw).1 = none → (alloc_page jd s vpn rw).2 = s) := by
  cases hf : findFree s.mapcounts with
  | none =>
    have hall := findFromAux_none s.mapcounts 128 0 (by omega) hf
    have h1 : alloc_page jd s vpn rw = (none, s) := by
      unfold alloc_page
      rw [hf]
    rw [h1]
    refine ⟨⟨fun _ f => ?_, fun _ => rfl⟩, fun _ => rfl⟩
    have := hall f (Nat.zero_le _)
    omega
  | some p =>
    have hp0 : s.mapcounts p = 0 := (findFromAux_some s.mapcounts 128 0 p hf).2.1
    have h1 : alloc_page jd s vpn rw = (some p, alloc_page_install jd s vpn rw p) := by
      unfold alloc_page
      rw [hf]
    rw [h1]
    refine ⟨⟨fun h => absurd h (by simp), fun hall => ?_⟩, fun h => absurd h (by simp)⟩
    have := hall p
    omega

/-- C10 witness: on c10st, where every frame has count 1, a writable
allocation fails and returns the state unchanged. -/
theorem c10_witness :
    (alloc_page jdZero c10st v0 RW_WRITE).1 = none ∧
    (alloc_page jdZero c10st v0 RW_WRITE).2 = c10st := by
  have h := c10_oom_iff jdZero c10st v0 RW_WRITE
  have h1 : (alloc_page jdZero c10st v0 RW_WRITE).1 = none :=
    h.1.mpr (by decide)
  exact ⟨h1, h.2 h1⟩

/-- The last-sharer COW branch leaves the frame counters untouched. -/
theorem cow_mark_writable_mapcounts (s : VMState) (vpn : Fin 256)
    (dir : PTEDirectory) :
    (cow_mark_writable s vpn dir).mapcounts = s.mapcounts := rfl

/-- The PTE observed at the faulting vpn after the last-sharer COW branch. -/
theorem pteAt_cow_mark_writable (s : VMState) (vpn : Fin 256)
    (dir : PTEDirectory) :
    pteAt (cow_mark_writable s vpn dir) vpn =
      { dir.ptes (innerIndex vpn) with writable := true } := by
  unfold pteAt pteAtPT cow_mark_writable
  simp [Function.update_same]

/-- The outer slot of the faulting vpn stays populated after the last-sharer
COW branch. -/
theorem cow_mark_writable_outer_isSome (s : VMState) (vpn : Fin 256)
    (dir : PTEDirectory) :
    ((cow_mark_writable s vpn dir).pt.outer_ptes (outerIndex vpn)).isSome
      = true := by
  unfold cow_mark_writable
  simp [Function.update_same]

/-- When the outer slot is populated the fault predicate only depends on the
vpn's PTE. -/
theorem faults_eq_pteAt (s : VMState) (vpn : Fin 256) (rw : Nat)
    (h : (s.pt.outer_ptes (outerIndex vpn)).isSome = true) :
    faults s vpn rw =
      (!(pteAt s vpn).valid ||
        (decide (rw = RW_WRITE) && !(pteAt s vpn).writable)) := by
  unfold faults pteAt pteAtPT
  cases hx : s.pt.outer_ptes (outerIndex vpn) with
  | none => rw [hx] at h; simp at h
  | some d => simp

/-- C1 (amended): for a write fault on a valid COW PTE (priv = 1, count in
unsigned range): if the frame's share count exceeds 1 and a frame with
count 0 exists (say p, the lowest such), the handler decrements the old
frame's count, installs fresh private frame p for the vpn with write
permission, returns true, and a subsequent write no longer faults; without
the free-frame proviso the claim fails (see the counterexample).  If the
share count equals 1, the handler sets writable on the existing PTE, changes
no share count, returns true, and a subsequent write no longer faults. -/
theorem c1_amended (jd : PTEDirectory) (s : VMState) (vpn : Fin 256)
    (d : PTEDirectory) (p : Fin 128)
    (hd : s.pt.outer_ptes (outerIndex vpn) = some d)
    (hv : (d.ptes (innerIndex vpn)).valid = true)
    (hc : (d.ptes (innerIndex vpn)).priv = 1)
    (hw : s.mapcounts (d.ptes (innerIndex vpn)).pfn < 4294967296) :
    (1 < s.mapcounts (d.ptes (innerIndex vpn)).pfn →
      findFree s.mapcounts = some p →
      retBool (handle_page_fault jd s vpn RW_WRITE) = some true ∧
      pteAt (vmOf (handle_page_fault jd s vpn RW_WRITE) s) vpn =
        ⟨true, true, p, 1⟩ ∧
      p ≠ (d.ptes (innerIndex vpn)).pfn ∧
      (vmOf (handle_page_fault jd s vpn RW_WRITE) s).mapcounts
          (d.ptes (innerIndex vpn)).pfn =
        s.mapcounts (d.ptes (innerIndex vpn)).pfn - 1 ∧
      (vmOf (handle_page_fault jd s vpn RW_WRITE) s).mapcounts p = 1 ∧
      faults (vmOf (handle_page_fault jd s vpn RW_WRITE) s) vpn RW_WRITE
        = false) ∧
    (s.mapcounts (d.ptes (innerIndex vpn)).pfn = 1 →
      retBool (handle_page_fault jd s vpn RW_WRITE) = some true ∧
      pteAt (vmOf (handle_page_fault jd s vpn RW_WRITE) s) vpn =
        ⟨true, true, (d.ptes (innerIndex vpn)).pfn, 1⟩ ∧
      (vmOf (handle_page_fault jd s vpn RW_WRITE) s).mapcounts = s.mapcounts ∧
      faults (vmOf (handle_page_fault jd s vpn RW_WRITE) s) vpn RW_WRITE
        = false) := by
  have h1 : ¬((d.ptes (innerIndex vpn)).valid = false) := by simp [hv]
  have h2 : ¬(RW_WRITE = RW_WRITE ∧ (d.ptes (innerIndex vpn)).writable = false ∧
      (d.ptes (innerIndex vpn)).priv = 0) := by
    rintro ⟨-, -, hp0⟩
    rw [hc] at hp0
    exact absurd hp0 (by decide)
  constructor
  · intro hcount hfind
    have h3 : (d.ptes (innerIndex vpn)).priv = 1 ∧
        s.mapcounts (d.ptes (innerIndex vpn)).pfn > 1 := ⟨hc, hcount⟩
    have hstep : handle_page_fault jd s vpn RW_WRITE =
        PFResult.ret true
          (alloc_page jd
            { s with
              mapcounts :=
                Function.update s.mapcounts (d.ptes (innerIndex vpn)).pfn
                  (decWrap (s.mapcounts (d.ptes (innerIndex vpn)).pfn)) }
            vpn RW_WRITE).2 := by
      rw [handle_page_fault_eq jd s vpn RW_WRITE d hd]
      unfold handle_page_fault_body
      rw [if_neg h1, if_neg h2, if_pos h3]
    have hp0 : s.mapcounts p = 0 :=
      (findFromAux_some s.mapcounts 128 0 p hfind).2.1
    have hpf : p ≠ (d.ptes (innerIndex vpn)).pfn := by
      intro he
      rw [he] at hp0
      omega
    have hiff : ∀ q : Fin 128,
        Function.update s.mapcounts (d.ptes (innerIndex vpn)).pfn
          (decWrap (s.mapcounts (d.ptes (innerIndex vpn)).pfn)) q = 0 ↔
        s.mapcounts q = 0 := by
      intro q
      by_cases hq : q = (d.ptes (innerIndex vpn)).pfn
      · subst hq
        rw [Function.update_same]
        unfold decWrap
        omega
      · rw [Function.update_noteq hq]
    have hupd : findFree
        (Function.update s.mapcounts (d.ptes (innerIndex vpn)).pfn
          (decWrap (s.mapcounts (d.ptes (innerIndex vpn)).pfn))) = some p := by
      unfold findFree
      rw [findFromAux_congr _ _ hiff 128 0]
      exact hfind
    have halloc := alloc_page_eq_some jd
      { s with
        mapcounts :=
          Function.update s.mapcounts (d.ptes (innerIndex vpn)).pfn
            (decWrap (s.mapcounts (d.ptes (innerIndex vpn)).pfn)) }
      vpn RW_WRITE p hupd
    have hinstEq : (alloc_page jd
        { s with
          mapcounts :=
            Function.update s.mapcounts (d.ptes (innerIndex vpn)).pfn
              (decWrap (s.mapcounts (d.ptes (innerIndex vpn)).pfn)) }
        vpn RW_WRITE).2 =
      alloc_page_install jd
        { s with
          mapcounts :=
            Function.update s.mapcounts (d.ptes (innerIndex vpn)).pfn
              (decWrap (s.mapcounts (d.ptes (innerIndex vpn)).pfn)) }
        vpn RW_WRITE p := by
      rw [halloc]
    have hd2 : ({ s with
        mapcounts :=
          Function.update s.mapcounts (d.ptes (innerIndex vpn)).pfn
            (decWrap (s.mapcounts (d.ptes (innerIndex vpn)).pfn)) } :
          VMState).pt.outer_ptes (outerIndex vpn) = some d := hd
    have hpte : pteAt (alloc_page_install jd
        { s with
          mapcounts :=
            Function.update s.mapcounts (d.ptes (innerIndex vpn)).pfn
              (decWrap (s.mapcounts (d.ptes (innerIndex vpn)).pfn)) }
        vpn RW_WRITE p) vpn = ⟨true, true, p, 1⟩ := by
      rw [pteAt_alloc_page_install,
        if_pos (Or.inl rfl : RW_WRITE = 2 ∨ RW_WRITE = 3), hd2]
      rw [Option.getD_some]
      simp only [hc]
    rw [hstep]
    simp only [retBool, vmOf]
    rw [hinstEq]
    refine ⟨trivial, hpte, hpf, ?_, ?_, ?_⟩
    · rw [alloc_page_install_mapcounts, Function.update_noteq (Ne.symm hpf)]
      show Function.update s.mapcounts (d.ptes (innerIndex vpn)).pfn
        (decWrap (s.mapcounts (d.ptes (innerIndex vpn)).pfn))
        (d.ptes (innerIndex vpn)).pfn = _
      rw [Function.update_same]
      exact decWrap_eq_sub _ (by omega) hw
    · rw [alloc_page_install_mapcounts, Function.update_same]
      show incWrap (Function.update s.mapcounts (d.ptes (innerIndex vpn)).pfn
        (decWrap (s.mapcounts (d.ptes (innerIndex vpn)).pfn)) p) = 1
      rw [Function.update_noteq hpf, hp0]
      decide
    · rw [faults_eq_pteAt _ _ _
        (alloc_page_install_outer_isSome jd _ vpn RW_WRITE p), hpte]
      rfl
  · intro hcount1
    have h3n : ¬((d.ptes (innerIndex vpn)).priv = 1 ∧
        s.mapcounts (d.ptes (innerIndex vpn)).pfn > 1) := by
      rintro ⟨-, hgt⟩
      omega
    have h4 : (d.ptes (innerIndex vpn)).priv = 1 ∧
        s.mapcounts (d.ptes (innerIndex vpn)).pfn = 1 := ⟨hc, hcount1⟩
    have hstep : handle_page_fault jd s vpn RW_WRITE =
        PFResult.ret true (cow_mark_writable s vpn d) := by
      rw [handle_page_fault_eq jd s vpn RW_WRITE d hd]
      unfold handle_page_fault_body
      rw [if_neg h1, if_neg h2, if_neg h3n, if_pos h4]
    have hpte : pteAt (cow_mark_writable s vpn d) vpn =
        ⟨true, true, (d.ptes (innerIndex vpn)).pfn, 1⟩ := by
      rw [pteAt_cow_mark_writable]
      rw [show ({ d.ptes (innerIndex vpn) with writable := true } : PTE) =
        ⟨(d.ptes (innerIndex vpn)).valid, true, (d.ptes (innerIndex vpn)).pfn,
          (d.ptes (innerIndex vpn)).priv⟩ from rfl, hv, hc]
    rw [hstep]
    simp only [retBool, vmOf]
    refine ⟨trivial, hpte, cow_mark_writable_mapcounts s vpn d, ?_⟩
    rw [faults_eq_pteAt _ _ _ (cow_mark_writable_outer_isSome s vpn d), hpte]
    rfl

/-- C1 witness: on c1wSt (vpn 0 valid COW on frame 0, count 2, frame 1 free)
a write fault installs fresh frame 1 writable, drops frame 0's count to 1,
raises frame 1's count to 1, and a subsequent write does not fault. -/
theorem c1_witness :
    retBool (handle_page_fault jdZero c1wSt v0 RW_WRITE) = some true ∧
    pteAt (vmOf (handle_page_fault jdZero c1wSt v0 RW_WRITE) c1wSt) v0 =
      ⟨true, true, 1, 1⟩ ∧
    (vmOf (handle_page_fault jdZero c1wSt v0 RW_WRITE) c1wSt).mapcounts 0 = 1 ∧
    (vmOf (handle_page_fault jdZero c1wSt v0 RW_WRITE) c1wSt).mapcounts 1 = 1 ∧
    faults (vmOf (handle_page_fault jdZero c1wSt v0 RW_WRITE) c1wSt) v0
      RW_WRITE = false := by
  have h := (c1_amended jdZero c1wSt v0 c1dir 1 rfl rfl rfl (by decide)).1
    (by decide) (by decide)
  exact ⟨h.1, h.2.1, h.2.2.2.1, h.2.2.2.2.1, h.2.2.2.2.2⟩
